import Mathlib

/-!
Verification of the uGFX progressbar widget contract (`src/gwin/progressbar.h`).

The repository ships only the public header: the struct layout (with its
conditional timer fields), the function declarations with their documented
behavior, and the `gwinProgressbarGetPosition` field-read. The function
bodies live in a translation unit that is not part of the sources, so the
mutator semantics below are modelled from the specification's words, which
match the header's own doc comments. The struct-field and declaration lists
are transcribed from the header itself.
-/

namespace UGfx

/-- The progressbar widget state, following `GProgressbarObject` in the
header: `dpos` (last drawn position), `min`, `max`, `res`, `pos`, and the
timer state (`GTimer gt`, `delaytime_t delay`) modelled as a running flag
plus the configured delay. The embedded generic widget base `w` carries no
progressbar-specific state and is omitted. -/
structure GProgressbarObject where
  dpos : Int
  min : Int
  max : Int
  res : Int
  pos : Int
  gtRunning : Bool
  delay : Nat
  deriving Repr, DecidableEq

/-- The widget-initialisation geometry relevant to creation: requested
width and height of the drawing area. -/
structure GWidgetInit where
  width : Int
  height : Int
  deriving Repr, DecidableEq

/-- Modelled from the spec: "If the new position is outside the progressbar
range then the position is set to the closest end of the range" (also the
header doc of `gwinProgressbarSetPosition`). For a range `[lo, hi]` a value
below `lo` becomes `lo`, a value above `hi` becomes `hi`, and a value
inside is kept. -/
def clampToRange (lo hi p : Int) : Int :=
  if p < lo then lo
  else if hi < p then hi
  else p

/-- Modelled from the spec: `setRange(min, max)` "replaces bounds;
unconditionally resets position to `min`" (header: "Sets the position to
the minimum value"). The body of `gwinProgressbarSetRange` is not in the
sources. -/
def gwinProgressbarSetRange (g : GProgressbarObject) (mn mx : Int) : GProgressbarObject :=
  { g with min := mn, max := mx, pos := mn }

/-- Modelled from the spec: `setPosition(pos)` "clamps `pos` into
`[min,max]`". The body of `gwinProgressbarSetPosition` is not in the
sources. -/
def gwinProgressbarSetPosition (g : GProgressbarObject) (p : Int) : GProgressbarObject :=
  { g with pos := clampToRange g.min g.max p }

/-- Modelled from the spec: `setResolution(res)` "sets step size for
increment/decrement". The body of `gwinProgressbarSetResolution` is not in
the sources. -/
def gwinProgressbarSetResolution (g : GProgressbarObject) (r : Int) : GProgressbarObject :=
  { g with res := r }

/-- Modelled from the spec: `increment()` adds `res` to `pos`, then clamps
to the range. The body of `gwinProgressbarIncrement` is not in the
sources. -/
def gwinProgressbarIncrement (g : GProgressbarObject) : GProgressbarObject :=
  { g with pos := clampToRange g.min g.max (g.pos + g.res) }

/-- Modelled from the spec: `decrement()` subtracts `res` from `pos`, then
clamps to the range. The body of `gwinProgressbarDecrement` is not in the
sources. -/
def gwinProgressbarDecrement (g : GProgressbarObject) : GProgressbarObject :=
  { g with pos := clampToRange g.min g.max (g.pos - g.res) }

/-- From the header (line 139): `gwinProgressbarGetPosition(gh)` expands to
`(((GProgressbarObject *)(gh))->pos)` — a pure read of the `pos` field of
the object the handle points to, with no validation and no mutation. -/
def gwinProgressbarGetPosition (g : GProgressbarObject) : Int :=
  g.pos

/-- Modelled from the spec: `start(delay)` "begins a recurring callback
(period = `delay`) ... starting from the current position rather than
resetting to minimum". The body of `gwinProgressbarStart` is not in the
sources. -/
def gwinProgressbarStart (g : GProgressbarObject) (d : Nat) : GProgressbarObject :=
  { g with gtRunning := true, delay := d }

/-- Modelled from the spec: `stop()` "cancels the recurring callback if
active; a no-op if not running". The body of `gwinProgressbarStop` is not
in the sources. -/
def gwinProgressbarStop (g : GProgressbarObject) : GProgressbarObject :=
  { g with gtRunning := false }

/-- Modelled from the spec: each scheduled tick of the virtual timer
"performs the equivalent of `increment()`" while the timer is running, and
has no effect once the timer has been cancelled. -/
def progressbarTimerTick (g : GProgressbarObject) : GProgressbarObject :=
  if g.gtRunning then gwinProgressbarIncrement g else g

/-- Modelled from the spec: the widget events the auto-increment feature
could raise; the only candidate mentioned is a maximum-reached event. -/
inductive PBEvent where
  | maxReached
  deriving Repr, DecidableEq

/-- Modelled from the spec: "No explicit event is raised on reaching
maximum (documented as a known gap)" — the header marks the
maximum-reached event as ToDo, so a timer tick produces the state change
of `progressbarTimerTick` and an empty event list. -/
def progressbarTickWithEvents (g : GProgressbarObject) : GProgressbarObject × List PBEvent :=
  (progressbarTimerTick g, [])

/-- From the header (line 57): "The initial progressbar range is from 0 to
100 with an initial position of 0"; spec: `res` default 1. State of a
freshly created progressbar. -/
def initialProgressbar : GProgressbarObject :=
  { dpos := 0, min := 0, max := 100, res := 1, pos := 0, gtRunning := false, delay := 0 }

/-- Modelled from the spec: `gwinGProgressbarCreate` "returns NULL if there
is no resultant drawing area" (header line 45) or when "dynamic allocation
of the object fails" given no pre-allocated object; on success it returns
a handle to the freshly initialised object. The body is not in the
sources. `preAllocated` models whether the `gb` argument was non-NULL;
`allocSucceeds` models the outcome of the dynamic allocation that is
attempted when it is NULL. -/
def gwinGProgressbarCreate (pInit : GWidgetInit) (preAllocated allocSucceeds : Bool) :
    Option GProgressbarObject :=
  if pInit.width ≤ 0 ∨ pInit.height ≤ 0 then none
  else if preAllocated = false ∧ allocSucceeds = false then none
  else some initialProgressbar

/-- A mutator call on a progressbar, covering every state-changing entry
point of the header plus the auto-increment timer tick. -/
inductive PBOp where
  | setRange (mn mx : Int)
  | setPosition (p : Int)
  | setResolution (r : Int)
  | increment
  | decrement
  | start (d : Nat)
  | stop
  | tick
  deriving Repr, DecidableEq

/-- Apply one mutator call to the widget state. -/
def pbStep (g : GProgressbarObject) : PBOp → GProgressbarObject
  | .setRange mn mx => gwinProgressbarSetRange g mn mx
  | .setPosition p => gwinProgressbarSetPosition g p
  | .setResolution r => gwinProgressbarSetResolution g r
  | .increment => gwinProgressbarIncrement g
  | .decrement => gwinProgressbarDecrement g
  | .start d => gwinProgressbarStart g d
  | .stop => gwinProgressbarStop g
  | .tick => progressbarTimerTick g

/-- Run a sequence of mutator calls from a given state. -/
def pbRun (g : GProgressbarObject) (ops : List PBOp) : GProgressbarObject :=
  List.foldl pbStep g ops

/-- A call supplies an ordered range: `setRange` is given `min ≤ max`
(the spec's data model assumes a non-inverted configured range); every
other call is unconstrained. -/
def PBOp.orderedRange : PBOp → Bool
  | .setRange mn mx => decide (mn ≤ mx)
  | _ => true

/-- The range invariant of the spec's data model: the configured range is
non-inverted and `pos` lies within it. -/
def InRange (g : GProgressbarObject) : Prop :=
  g.min ≤ g.max ∧ g.min ≤ g.pos ∧ g.pos ≤ g.max

instance (g : GProgressbarObject) : Decidable (InRange g) := by
  unfold InRange; infer_instance

/-- Apply a state transformer `n` times (the effect of `n` scheduled timer
ticks, or of `n` direct increments). -/
def applyN (f : GProgressbarObject → GProgressbarObject) :
    Nat → GProgressbarObject → GProgressbarObject
  | 0, g => g
  | n + 1, g => applyN f n (f g)

/-- Names of the fields of `GProgressbarObject` as laid out in the header
(lines 26-37): `gt` and `delay` are present exactly when `GFX_USE_GTIMER`
is set. -/
def progressbarObjectFields (useGTimer : Bool) : List String :=
  ["w", "dpos", "min", "max", "res", "pos"] ++
    (if useGTimer then ["gt", "delay"] else [])

/-- Names of the entry points the header declares (lines 62-190), as a
function of the `GFX_USE_GTIMER` configuration: in the header none of the
declarations is guarded by `#if GFX_USE_GTIMER`, so the list does not
depend on the flag. -/
def progressbarInterfaceDecls (_useGTimer : Bool) : List String :=
  ["gwinGProgressbarCreate", "gwinProgressbarSetRange", "gwinProgressbarSetPosition",
   "gwinProgressbarSetResolution", "gwinProgressbarIncrement", "gwinProgressbarDecrement",
   "gwinProgressbarGetPosition", "gwinProgressbarStart", "gwinProgressbarStop",
   "gwinProgressbarDraw_Std", "gwinProgressbarDraw_Image"]

/-- Clamping into a non-inverted range lands inside the range. -/
theorem clampToRange_mem (lo hi p : Int) (h : lo ≤ hi) :
    lo ≤ clampToRange lo hi p ∧ clampToRange lo hi p ≤ hi := by
  unfold clampToRange
  split_ifs <;> omega

/-- Every single mutator call preserves the range invariant, provided a
`setRange` call supplies an ordered range. -/
theorem pbStep_inRange (g : GProgressbarObject) (op : PBOp)
    (hg : InRange g) (hop : op.orderedRange = true) : InRange (pbStep g op) := by
  obtain ⟨h1, h2, h3⟩ := hg
  cases op with
  | setRange mn mx =>
      have hmn : mn ≤ mx := by simpa [PBOp.orderedRange] using hop
      simp only [pbStep, gwinProgressbarSetRange, InRange]
      omega
  | setPosition p =>
      simp only [pbStep, gwinProgressbarSetPosition, InRange, clampToRange]
      split_ifs <;> omega
  | setResolution r =>
      simpa only [pbStep, gwinProgressbarSetResolution, InRange] using ⟨h1, h2, h3⟩
  | increment =>
      simp only [pbStep, gwinProgressbarIncrement, InRange, clampToRange]
      split_ifs <;> omega
  | decrement =>
      simp only [pbStep, gwinProgressbarDecrement, InRange, clampToRange]
      split_ifs <;> omega
  | start d =>
      simpa only [pbStep, gwinProgressbarStart, InRange] using ⟨h1, h2, h3⟩
  | stop =>
      simpa only [pbStep, gwinProgressbarStop, InRange] using ⟨h1, h2, h3⟩
  | tick =>
      by_cases hb : g.gtRunning
      · simp only [pbStep, progressbarTimerTick, hb, if_true,
          gwinProgressbarIncrement, InRange, clampToRange]
        split_ifs <;> omega
      · simp only [pbStep, progressbarTimerTick, hb, if_false, InRange]
        exact ⟨h1, h2, h3⟩

/-- Claim C1: for every progressbar and every sequence of mutator calls
(setRange with an ordered range, setPosition, setResolution, increment,
decrement, start, stop and auto-increment timer ticks), the position stays
within the configured range `[min, max]`; in particular
`gwinProgressbarGetPosition` never leaves `[min, max]`. -/
theorem progressbar_pos_invariant (g : GProgressbarObject) (ops : List PBOp)
    (hg : InRange g) (hops : ∀ op ∈ ops, op.orderedRange = true) :
    InRange (pbRun g ops) ∧
      (pbRun g ops).min ≤ gwinProgressbarGetPosition (pbRun g ops) ∧
      gwinProgressbarGetPosition (pbRun g ops) ≤ (pbRun g ops).max := by
  have main : InRange (pbRun g ops) := by
    induction ops generalizing g with
    | nil => exact hg
    | cons op rest ih =>
        have hstep : InRange (pbStep g op) :=
          pbStep_inRange g op hg (hops op (List.mem_cons_self op rest))
        exact ih (pbStep g op) hstep (fun o ho => hops o (List.mem_cons_of_mem op ho))
  exact ⟨main, main.2.1, main.2.2⟩

/-- Claim C1 witness: a concrete mutator sequence from the initial state,
including an out-of-range setPosition, keeps the position in range. -/
theorem progressbar_pos_invariant_witness :
    InRange (pbRun initialProgressbar
        [PBOp.setRange 0 50, PBOp.setPosition 150, PBOp.start 200, PBOp.tick,
         PBOp.increment, PBOp.decrement, PBOp.stop, PBOp.tick]) ∧
      (pbRun initialProgressbar
        [PBOp.setRange 0 50, PBOp.setPosition 150, PBOp.start 200, PBOp.tick,
         PBOp.increment, PBOp.decrement, PBOp.stop, PBOp.tick]).min ≤
        gwinProgressbarGetPosition (pbRun initialProgressbar
          [PBOp.setRange 0 50, PBOp.setPosition 150, PBOp.start 200, PBOp.tick,
           PBOp.increment, PBOp.decrement, PBOp.stop, PBOp.tick]) ∧
      gwinProgressbarGetPosition (pbRun initialProgressbar
        [PBOp.setRange 0 50, PBOp.setPosition 150, PBOp.start 200, PBOp.tick,
         PBOp.increment, PBOp.decrement, PBOp.stop, PBOp.tick]) ≤
        (pbRun initialProgressbar
          [PBOp.setRange 0 50, PBOp.setPosition 150, PBOp.start 200, PBOp.tick,
           PBOp.increment, PBOp.decrement, PBOp.stop, PBOp.tick]).max :=
  progressbar_pos_invariant initialProgressbar
    [PBOp.setRange 0 50, PBOp.setPosition 150, PBOp.start 200, PBOp.tick,
     PBOp.increment, PBOp.decrement, PBOp.stop, PBOp.tick]
    (by decide) (by decide)

/-- Claim C2: with a non-inverted range, after `setPosition(pos)` the
observed position is the mathematical clamp of `pos` into `[min, max]`. -/
theorem setPosition_getPosition_clamp (g : GProgressbarObject) (p : Int)
    (h : g.min ≤ g.max) :
    gwinProgressbarGetPosition (gwinProgressbarSetPosition g p) =
      max g.min (min g.max p) := by
  simp only [gwinProgressbarGetPosition, gwinProgressbarSetPosition, clampToRange]
  rw [max_def, min_def]
  split_ifs <;> omega

/-- Claim C2 witness: setting position 150 on the freshly created widget
(range `[0, 100]`) yields the clamp of 150. -/
theorem setPosition_getPosition_clamp_witness :
    gwinProgressbarGetPosition (gwinProgressbarSetPosition initialProgressbar 150) =
      max initialProgressbar.min (min initialProgressbar.max 150) :=
  setPosition_getPosition_clamp initialProgressbar 150 (by decide)

/-- Claim C3: for `min ≤ max`, `setRange(min, max)` replaces the bounds and
unconditionally resets the position to the new minimum. -/
theorem setRange_resets_position (g : GProgressbarObject) (mn mx : Int)
    (h : mn ≤ mx) :
    (gwinProgressbarSetRange g mn mx).min = mn ∧
      (gwinProgressbarSetRange g mn mx).max = mx ∧
      gwinProgressbarGetPosition (gwinProgressbarSetRange g mn mx) = mn := by
  exact ⟨rfl, rfl, rfl⟩

/-- Claim C3 witness: `setRange(10, 90)` on a widget positioned at 50 moves
the position to 10. -/
theorem setRange_resets_position_witness :
    (gwinProgressbarSetRange (⟨0, 0, 100, 1, 50, false, 0⟩ : GProgressbarObject) 10 90).min = 10 ∧
      (gwinProgressbarSetRange (⟨0, 0, 100, 1, 50, false, 0⟩ : GProgressbarObject) 10 90).max = 90 ∧
      gwinProgressbarGetPosition
        (gwinProgressbarSetRange (⟨0, 0, 100, 1, 50, false, 0⟩ : GProgressbarObject) 10 90) = 10 :=
  setRange_resets_position ⟨0, 0, 100, 1, 50, false, 0⟩ 10 90 (by decide)

/-- Claim C4: creation returns the failure signal (no handle) exactly when
the requested geometry has no drawable area (non-positive width or height)
or when, with no pre-allocated object, the dynamic allocation fails;
otherwise it returns a handle. -/
theorem create_fails_iff (pInit : GWidgetInit) (pre alloc : Bool) :
    gwinGProgressbarCreate pInit pre alloc = none ↔
      (pInit.width ≤ 0 ∨ pInit.height ≤ 0 ∨ (pre = false ∧ alloc = false)) := by
  unfold gwinGProgressbarCreate
  split_ifs with h1 h2
  · refine iff_of_true rfl ?_
    rcases h1 with h | h
    · exact Or.inl h
    · exact Or.inr (Or.inl h)
  · exact iff_of_true rfl (Or.inr (Or.inr h2))
  · refine iff_of_false (by simp) ?_
    push_neg at h1
    rintro (h | h | h)
    · omega
    · omega
    · exact h2 h

/-- Running `increment` does not change the timer state. -/
theorem increment_gtRunning (g : GProgressbarObject) :
    (gwinProgressbarIncrement g).gtRunning = g.gtRunning := rfl

/-- While the timer is running, `n` timer ticks have the same effect as `n`
direct increments. -/
theorem applyN_tick_eq_increment (n : Nat) (g : GProgressbarObject)
    (h : g.gtRunning = true) :
    applyN progressbarTimerTick n g = applyN gwinProgressbarIncrement n g := by
  induction n generalizing g with
  | zero => rfl
  | succ n ih =>
      simp only [applyN, progressbarTimerTick, h, if_true]
      exact ih (gwinProgressbarIncrement g) (by rw [increment_gtRunning]; exact h)

/-- Claim C5: `start(delay)` keeps the current position (no reset to the
minimum), and after it each timer tick performs the equivalent of
`increment()` (so `n` ticks equal `n` increments); a tick after `stop()`
produces no change, and `stop()` on a widget whose timer is not running is
a no-op. -/
theorem progressbar_start_tick_stop (g : GProgressbarObject) (d n : Nat) :
    (gwinProgressbarStart g d).pos = g.pos ∧
      applyN progressbarTimerTick n (gwinProgressbarStart g d) =
        applyN gwinProgressbarIncrement n (gwinProgressbarStart g d) ∧
      progressbarTimerTick (gwinProgressbarStop g) = gwinProgressbarStop g ∧
      (g.gtRunning = false → gwinProgressbarStop g = g) := by
  refine ⟨rfl, applyN_tick_eq_increment n _ rfl, ?_, ?_⟩
  · simp [progressbarTimerTick, gwinProgressbarStop]
  · intro h
    cases g
    simp_all [gwinProgressbarStop]

/-- Claim C5 witness: on the freshly created widget, whose timer is idle,
`stop()` leaves the state unchanged. -/
theorem progressbar_start_tick_stop_witness :
    initialProgressbar.gtRunning = false ∧
      gwinProgressbarStop initialProgressbar = initialProgressbar :=
  ⟨rfl, (progressbar_start_tick_stop initialProgressbar 200 3).2.2.2 rfl⟩

/-- Claim C6: with the position in a non-inverted range, a non-negative
resolution, and an increment that is not clamped at the maximum,
`increment()` followed by `decrement()` restores the prior position. -/
theorem increment_decrement_roundtrip (g : GProgressbarObject)
    (h1 : g.min ≤ g.pos) (h2 : g.pos ≤ g.max) (h3 : 0 ≤ g.res)
    (h4 : g.pos + g.res ≤ g.max) :
    gwinProgressbarGetPosition
      (gwinProgressbarDecrement (gwinProgressbarIncrement g)) = g.pos := by
  simp only [gwinProgressbarGetPosition, gwinProgressbarDecrement,
    gwinProgressbarIncrement, clampToRange]
  split_ifs <;> omega

/-- Claim C6 witness: from position 40 with resolution 10 in `[0, 100]`,
increment then decrement returns to 40. -/
theorem increment_decrement_roundtrip_witness :
    gwinProgressbarGetPosition
      (gwinProgressbarDecrement
        (gwinProgressbarIncrement (⟨0, 0, 100, 10, 40, false, 0⟩ : GProgressbarObject))) = 40 :=
  increment_decrement_roundtrip ⟨0, 0, 100, 10, 40, false, 0⟩
    (by decide) (by decide) (by decide) (by decide)

/-- Claim C7 counterexample: even with `GFX_USE_GTIMER` disabled, the
header still declares `gwinProgressbarStart` and `gwinProgressbarStop` —
the declarations are not guarded by the conditional, so the entry points
are not absent from the interface. -/
theorem timer_decls_present_when_disabled :
    "gwinProgressbarStart" ∈ progressbarInterfaceDecls false ∧
      "gwinProgressbarStop" ∈ progressbarInterfaceDecls false := by
  decide

/-- Claim C7 amended: when `GFX_USE_GTIMER` is false the timer state fields
`gt` and `delay` are absent from the object layout (and present when it is
true), while the start and stop entry points remain declared in the
header's interface unconditionally. -/
theorem timer_fields_conditional :
    "gt" ∉ progressbarObjectFields false ∧
      "delay" ∉ progressbarObjectFields false ∧
      "gt" ∈ progressbarObjectFields true ∧
      "delay" ∈ progressbarObjectFields true ∧
      "gwinProgressbarStart" ∈ progressbarInterfaceDecls false ∧
      "gwinProgressbarStop" ∈ progressbarInterfaceDecls false := by
  decide

/-- Claim C8: a timer tick of the auto-increment feature never raises an
event; when the position has reached the maximum (non-inverted range,
non-negative resolution) it stays there, observable only through
`gwinProgressbarGetPosition`. -/
theorem autoincrement_raises_no_event (g : GProgressbarObject) :
    (progressbarTickWithEvents g).2 = ([] : List PBEvent) ∧
      (g.pos = g.max → 0 ≤ g.res → g.min ≤ g.max →
        gwinProgressbarGetPosition (progressbarTickWithEvents g).1 = g.max) := by
  refine ⟨rfl, ?_⟩
  intro h1 h2 h3
  by_cases hb : g.gtRunning
  · simp only [progressbarTickWithEvents, progressbarTimerTick, hb, if_true,
      gwinProgressbarIncrement, gwinProgressbarGetPosition, clampToRange]
    split_ifs <;> omega
  · simp only [progressbarTickWithEvents, progressbarTimerTick, hb, if_false,
      gwinProgressbarGetPosition]
    exact h1

/-- Claim C8 witness: a running widget sitting at its maximum of 100 ticks
to no event and stays at 100. -/
theorem autoincrement_raises_no_event_witness :
    (progressbarTickWithEvents (⟨0, 0, 100, 1, 100, true, 200⟩ : GProgressbarObject)).2 =
        ([] : List PBEvent) ∧
      gwinProgressbarGetPosition
        (progressbarTickWithEvents (⟨0, 0, 100, 1, 100, true, 200⟩ : GProgressbarObject)).1 = 100 :=
  ⟨(autoincrement_raises_no_event ⟨0, 0, 100, 1, 100, true, 200⟩).1,
    (autoincrement_raises_no_event ⟨0, 0, 100, 1, 100, true, 200⟩).2 rfl (by decide) (by decide)⟩

/-- Claim C9: every successful creation yields a widget with range minimum
0, range maximum 100, position 0 and resolution 1. -/
theorem create_initial_state (pInit : GWidgetInit) (pre alloc : Bool)
    (g : GProgressbarObject)
    (h : gwinGProgressbarCreate pInit pre alloc = some g) :
    g.min = 0 ∧ g.max = 100 ∧ g.pos = 0 ∧ g.res = 1 := by
  unfold gwinGProgressbarCreate at h
  split_ifs at h
  all_goals
    first
      | exact Option.noConfusion h
      | (obtain rfl := (Option.some.inj h).symm; exact ⟨rfl, rfl, rfl, rfl⟩)

/-- Claim C9 witness: creating with a 10x10 area and a successful dynamic
allocation yields the documented initial state. -/
theorem create_initial_state_witness :
    initialProgressbar.min = 0 ∧ initialProgressbar.max = 100 ∧
      initialProgressbar.pos = 0 ∧ initialProgressbar.res = 1 :=
  create_initial_state ⟨10, 10⟩ false true initialProgressbar (by decide)

/-- Claim C10: `gwinProgressbarGetPosition` returns exactly the `pos` field
of the progressbar object the handle designates, and its result depends on
nothing but that field; being a pure field read it modifies no state, and
its domain is progressbar objects only (the cast is unchecked). -/
theorem getPosition_pure_field_read (g : GProgressbarObject) :
    gwinProgressbarGetPosition g = g.pos ∧
      (∀ g2 : GProgressbarObject, g2.pos = g.pos →
        gwinProgressbarGetPosition g2 = gwinProgressbarGetPosition g) :=
  ⟨rfl, fun _ h => h⟩

/-- Claim C10 witness: two objects agreeing on `pos` (but differing on
`dpos`) give the same reading, equal to the field itself. -/
theorem getPosition_pure_field_read_witness :
    gwinProgressbarGetPosition initialProgressbar = initialProgressbar.pos ∧
      gwinProgressbarGetPosition (⟨5, 0, 100, 1, 0, false, 0⟩ : GProgressbarObject) =
        gwinProgressbarGetPosition initialProgressbar :=
  ⟨(getPosition_pure_field_read initialProgressbar).1,
    (getPosition_pure_field_read initialProgressbar).2 ⟨5, 0, 100, 1, 0, false, 0⟩ rfl⟩

end UGfx
